import Mathlib

/-!
A shallow embedding of the content-stream interpreter of cosmic-reader
(`src/lopdf/pdf.rs`).  Rust `f32` arithmetic is modelled exactly over `ℚ`;
Rust panics (`unwrap`, out-of-bounds slice indexing) are modelled as
`Option.none` results of the interpreter step; the external collaborators
(document resource tables, the shared font system, the text shaper, UTF-8
lossy decoding) are oracle functions collected in `Env`.
-/

namespace CosmicReader

/-- 2D affine transform, modelling `euclid::Transform2D<f32>` as used via
`canvas::path::lyon_path::geom::euclid` (row-vector convention: a point maps
as `(x*m11 + y*m21 + m31, x*m12 + y*m22 + m32)`). -/
structure Transform where
  m11 : ℚ
  m12 : ℚ
  m21 : ℚ
  m22 : ℚ
  m31 : ℚ
  m32 : ℚ
deriving DecidableEq

/-- `Transform::identity()`. -/
def Transform.identity : Transform :=
  { m11 := 1, m12 := 0, m21 := 0, m22 := 1, m31 := 0, m32 := 0 }

/-- `Transform::scale(sx, sy)`. -/
def Transform.scale (sx sy : ℚ) : Transform :=
  { m11 := sx, m12 := 0, m21 := 0, m22 := sy, m31 := 0, m32 := 0 }

/-- `Transform::pre_translate(v)`: translate first, then apply `t`. -/
def Transform.preTranslate (t : Transform) (v : ℚ × ℚ) : Transform :=
  { t with
    m31 := v.1 * t.m11 + v.2 * t.m21 + t.m31
    m32 := v.1 * t.m12 + v.2 * t.m22 + t.m32 }

/-- `Transform::transform_point(p)`. -/
def Transform.transformPoint (t : Transform) (p : ℚ × ℚ) : ℚ × ℚ :=
  (p.1 * t.m11 + p.2 * t.m21 + t.m31, p.1 * t.m12 + p.2 * t.m22 + t.m32)

/-- Modelled from the spec: the concatenation (`matrix × old CTM`) that §9 of
the spec says the transform-set operator should perform.  The source never
performs this product (it replaces the CTM wholesale); this definition exists
only to contrast with what the code computes. -/
def Transform.concatCTM (m old : Transform) : Transform :=
  { m11 := m.m11 * old.m11 + m.m12 * old.m21
    m12 := m.m11 * old.m12 + m.m12 * old.m22
    m21 := m.m21 * old.m11 + m.m22 * old.m21
    m22 := m.m21 * old.m12 + m.m22 * old.m22
    m31 := m.m31 * old.m11 + m.m32 * old.m21 + old.m31
    m32 := m.m31 * old.m12 + m.m32 * old.m22 + old.m32 }

/-- `lopdf::Object`, restricted to the variants the interpreter touches.
Strings are byte lists; names are kept as Lean strings (the embedding assumes
well-formed UTF-8 names, which `as_name_str` would otherwise reject). -/
inductive Obj where
  | real (x : ℚ)
  | int (n : ℤ)
  | string (bytes : List ℕ)
  | name (s : String)
  | arr (xs : List Obj)

/-- `Object::as_float`: `Real` and `Integer` succeed, everything else errors. -/
def Obj.as_float : Obj → Option ℚ
  | .real x => some x
  | .int n => some (n : ℚ)
  | _ => none

/-- `Object::as_i64`: only `Integer` succeeds. -/
def Obj.as_i64 : Obj → Option ℤ
  | .int n => some n
  | _ => none

/-- `Object::as_str`: only `String` succeeds. -/
def Obj.as_str : Obj → Option (List ℕ)
  | .string bytes => some bytes
  | _ => none

/-- `as_name_str` (pdf.rs line 108): only `Name` succeeds (UTF-8 validity is
built into the model, names being Lean strings). -/
def Obj.as_name_str : Obj → Option String
  | .name s => some s
  | _ => none

/-- `Object::as_array`: only `Array` succeeds. -/
def Obj.as_array : Obj → Option (List Obj)
  | .arr xs => some xs
  | _ => none

/-- `lopdf::content::Operation`: operator token plus operand list. -/
structure Op where
  operator : String
  operands : List Obj

/-- `iced::Color` (rgba components). -/
structure ColorQ where
  r : ℚ
  g : ℚ
  b : ℚ
  a : ℚ
deriving DecidableEq

/-- `Color::from_rgb` (alpha 1). -/
def ColorQ.fromRgb (r g b : ℚ) : ColorQ := { r := r, g := g, b := b, a := 1 }

/-- `Color::BLACK`. -/
def ColorQ.black : ColorQ := { r := 0, g := 0, b := 0, a := 1 }

/-- `color_space::Rgb` (0..255 channel scale, as produced by that crate). -/
structure Rgb where
  r : ℚ
  g : ℚ
  b : ℚ
deriving DecidableEq

/-- `color_space::Cmy::to_rgb`. -/
def cmyToRgb (c m y : ℚ) : Rgb :=
  { r := (1 - c) * 255, g := (1 - m) * 255, b := (1 - y) * 255 }

/-- `color_space::Cmyk::to_rgb`. -/
def cmykToRgb (c m y k : ℚ) : Rgb :=
  { r := (1 - c) * (1 - k) * 255, g := (1 - m) * (1 - k) * 255, b := (1 - y) * (1 - k) * 255 }

/-- `convert_color` (pdf.rs lines 113-149).  `color[i]` indexing panics and
`as_float().unwrap()` panics are modelled as `none`; the unsupported
color-space arm returns black. -/
def convert_color (color_space : String) (color : List Obj) : Option ColorQ :=
  if color_space = "DeviceGray" then do
    let v ← (← color.get? 0).as_float
    some (ColorQ.fromRgb v v v)
  else if color_space = "DeviceRGB" then do
    let r ← (← color.get? 0).as_float
    let g ← (← color.get? 1).as_float
    let b ← (← color.get? 2).as_float
    some (ColorQ.fromRgb r g b)
  else if color_space = "DeviceCMYK" then do
    let c ← (← color.get? 0).as_float
    let m ← (← color.get? 1).as_float
    let y ← (← color.get? 2).as_float
    let rgb ←
      if color.length > 3 then do
        let k ← (← color.get? 3).as_float
        some (cmykToRgb c m y k)
      else
        some (cmyToRgb c m y)
    some (ColorQ.fromRgb rgb.r rgb.g rgb.b)
  else
    some ColorQ.black

/-- One event recorded by `canvas::path::Builder`. -/
inductive PathEvent where
  | bezierCurveTo (p1 p2 p3 : ℚ × ℚ)
  | close
  | lineTo (p : ℚ × ℚ)
  | moveTo (p : ℚ × ℚ)
  | rectangle (p : ℚ × ℚ) (s : ℚ × ℚ)

/-- `canvas::Path`: either built from recorded builder events or a transformed
path (`Path::transform`).  Glyph-outline paths produced by the shaper are also
values of this type, supplied by the `Env` oracle. -/
inductive PPath where
  | build (events : List PathEvent)
  | transformed (p : PPath) (t : Transform)

/-- `canvas::fill::Rule`. -/
inductive Rule where
  | nonZero
  | evenOdd
deriving DecidableEq

/-- `canvas::LineJoin`. -/
inductive LineJoin where
  | miter
  | round
  | bevel
deriving DecidableEq

/-- `canvas::Fill` (the fields the interpreter sets: color and winding rule).
`Fill::from(color)` leaves the rule at its `NonZero` default. -/
structure Fill where
  color : ColorQ
  rule : Rule

/-- `canvas::Stroke` (the fields the interpreter sets; defaults are black
color, width 1, miter join). -/
structure Stroke where
  color : ColorQ := ColorQ.black
  width : ℚ := 1
  lineJoin : LineJoin := LineJoin.miter

/-- `Rectangle` (top-left point plus size). -/
structure Rect where
  x : ℚ
  y : ℚ
  w : ℚ
  h : ℚ

/-- `Image` (pdf.rs lines 62-66); the `image::Handle` is opaque, modelled as a
number handed out by the `Env.loadImage` oracle. -/
structure Image where
  name : String
  rect : Rect
  handle : ℕ

/-- `PageOp` (pdf.rs lines 157-162). -/
structure PageOp where
  path : Option PPath
  fill : Option Fill
  stroke : Option Stroke
  image : Option Image

/-- `cosmic_text::AttrsOwned`, modelled abstractly: its contents are produced
by the external font system and document font dictionaries (the `Tf` arm),
which the `Env.resolveFont` oracle stands in for.  Only equality and the
default value matter to the interpreter itself. -/
structure Attrs where
  family : String := "sans-serif"
  stretch : ℕ := 5
  style : ℕ := 0
  weight : ℕ := 400

/-- `GraphicsState` (pdf.rs lines 33-44).  The text encoding is an opaque
identifier interpreted by the `Env.decodeText` oracle. -/
structure GraphicsState where
  line_join_style : ℤ
  line_width : ℚ
  text_attrs : Attrs
  text_encoding : Option ℕ
  text_leading : ℚ
  text_mode : ℤ
  text_rise : ℚ
  text_size : ℚ
  transform : Transform

/-- `GraphicsState::default` (pdf.rs lines 46-60). -/
def GraphicsState.defaultGS : GraphicsState :=
  { line_join_style := 0
    line_width := 1
    text_attrs := {}
    text_encoding := none
    text_leading := 0
    text_mode := 0
    text_rise := 0
    text_size := 0
    transform := Transform.identity }

/-- `TextState` (pdf.rs lines 68-72). -/
structure TextState where
  cursor_tf : Transform
  line_tf : Transform

/-- `TextState::set_tf` (pdf.rs lines 75-78). -/
def TextState.set_tf (_ts : TextState) (tf : Transform) : TextState :=
  { cursor_tf := tf, line_tf := tf }

/-- `TextState::default` (pdf.rs lines 81-88). -/
def TextState.mkDefault : TextState :=
  { cursor_tf := Transform.identity, line_tf := Transform.identity }

/-- The local mutable state of `page_ops` (pdf.rs lines 331-337): fill/stroke
color state, the two stacks, and the shared path accumulator.  Stacks are
lists with the head as top (Rust `Vec` push/pop at the end). -/
structure St where
  color_space_fill : String
  color_fill : List Obj
  color_space_stroke : String
  color_stroke : List Obj
  graphics_states : List GraphicsState
  text_states : List TextState
  p : List PathEvent

/-- The state `page_ops` starts from (pdf.rs lines 331-337). -/
def initState : St :=
  { color_space_fill := "DeviceGray"
    color_fill := [Obj.real 0]
    color_space_stroke := "DeviceGray"
    color_stroke := [Obj.real 0]
    graphics_states := [GraphicsState.defaultGS]
    text_states := []
    p := [] }

/-- The text record handed to the shaper (`super::text::Text`, whose source
file is not part of the given sources; per the spec §4.5 one PageOperation is
emitted per shown run and the shaper reports the run's measured width). -/
structure TextRec where
  content : String
  position : ℚ × ℚ
  color : ColorQ
  size : ℚ
  lineHeight : ℚ
  attrs : Attrs

/-- External collaborators of the interpreter, as oracles:
`resolveFont` models the `Tf` arm's document/font-system lookup (pdf.rs lines
447-580), `decodeText` models `Document::decode_text` (fallible), `lossy`
models `String::from_utf8_lossy`, `shaper` models `Text::draw_with`
(modelled from the spec: the `super::text` module is absent from the given
sources; §4.5 says each run is shaped once, emitting one operation and
reporting the measured width), and `loadImage` models `load_image`. -/
structure Env where
  resolveFont : String → Option ℕ × Attrs
  decodeText : ℕ → List ℕ → Option String
  lossy : List ℕ → String
  shaper : TextRec → PPath × ℚ
  loadImage : String → Option (ℕ × ℤ × ℤ)

/-- String decoding for a shown run (pdf.rs lines 669-674): decode through
the active encoding when there is one (fallible, `unwrap`ped by the source),
otherwise lossy UTF-8. -/
def decodeContent (env : Env) (gs : GraphicsState) (bytes : List ℕ) : Option String :=
  match gs.text_encoding with
  | some enc => env.decodeText enc bytes
  | none => some (env.lossy bytes)

/-- The `Text` record built for one shown run (pdf.rs lines 688-703). -/
def mkText (gs : GraphicsState) (color : ColorQ) (content : String) : TextRec :=
  { content := content
    position := (0, -gs.text_rise - gs.text_size)
    color := color
    size := gs.text_size
    lineHeight := gs.text_leading
    attrs := gs.text_attrs }

/-- The adjustment lookahead of the show-text loop (pdf.rs lines 676-685):
after consuming a string element, a following numeric element is consumed as
the adjustment; a non-numeric follower contributes adjustment 0 and is left
in place. -/
def takeAdjustment (hasAdj : Bool) : List Obj → ℚ × List Obj
  | [] => (0, [])
  | e :: rest =>
    if hasAdj then
      match e.as_float with
      | some a => (a, rest)
      | none => (0, e :: rest)
    else (0, e :: rest)

theorem takeAdjustment_length (hasAdj : Bool) (l : List Obj) :
    (takeAdjustment hasAdj l).2.length ≤ l.length := by
  cases l with
  | nil => simp [takeAdjustment]
  | cons e rest =>
    simp only [takeAdjustment]
    split
    · cases h : e.as_float <;> simp
    · simp

/-- The `while i < elements.len()` loop of the `Tj`/`TJ` arm (pdf.rs lines
665-729), threaded over the active `TextState`.  Each iteration decodes one
string run, optionally consumes an adjustment, emits one operation carrying
the shaped glyph path transformed by the vertical flip and the cursor
transform, and advances the cursor by `max_w - adjustment/1000` along x. -/
def showRuns (env : Env) (hasAdj : Bool) (gs : GraphicsState)
    (csFill : String) (cFill : List Obj) :
    List Obj → TextState → Option (TextState × List PageOp)
  | [], ts => some (ts, [])
  | e :: rest, ts =>
    match e.as_str with
    | none => none
    | some bytes =>
      match decodeContent env gs bytes with
      | none => none
      | some content =>
        let adjRest := takeAdjustment hasAdj rest
        match convert_color csFill cFill with
        | none => none
        | some color =>
          let gw := env.shaper (mkText gs color content)
          let pop : PageOp :=
            { path := some (PPath.transformed
                (PPath.transformed gw.1 (Transform.scale 1 (-1))) ts.cursor_tf)
              fill := some { color := color, rule := Rule.nonZero }
              stroke := none
              image := none }
          let ts2 : TextState :=
            { ts with cursor_tf := ts.cursor_tf.preTranslate (gw.2 - adjRest.1 / 1000, 0) }
          match showRuns env hasAdj gs csFill cFill adjRest.2 ts2 with
          | none => none
          | some (tsF, ops) => some (tsF, pop :: ops)
termination_by l _ => l.length
decreasing_by
  simp only [List.length_cons]
  exact Nat.lt_succ_of_le (takeAdjustment_length _ _)

/-- The line-join decoding of the stroke style (pdf.rs lines 418-423). -/
def joinOf (style : ℤ) : LineJoin :=
  if style = 0 then LineJoin.miter
  else if style = 1 then LineJoin.round
  else if style = 2 then LineJoin.bevel
  else LineJoin.miter

/-- The painting-operator decode table (pdf.rs lines 380-392); the
`panic!` arm is `none`.  The `"F"` row is present in the table but is never
reached: `"F"` is not matched by the dispatch pattern (pdf.rs line 379). -/
def paintTable : String → Option (Bool × Bool × Bool × Rule)
  | "b" => some (true, true, true, Rule.nonZero)
  | "B" => some (false, true, true, Rule.nonZero)
  | "b*" => some (true, true, true, Rule.evenOdd)
  | "B*" => some (false, true, true, Rule.evenOdd)
  | "f" => some (true, true, false, Rule.nonZero)
  | "f*" => some (false, true, false, Rule.evenOdd)
  | "F" => some (false, true, false, Rule.nonZero)
  | "n" => some (false, false, false, Rule.nonZero)
  | "s" => some (true, false, true, Rule.nonZero)
  | "S" => some (false, false, true, Rule.nonZero)
  | _ => none

/-- The tokens matched by the path-painting dispatch arm (pdf.rs line 379). -/
def paintToks : List String := ["b", "B", "b*", "B*", "f", "f*", "n", "s", "S"]

def isPaintTok (tok : String) : Bool := decide (tok ∈ paintToks)

/-- The fill styling of a painted path (pdf.rs lines 406-413). -/
def fillStyleOf (st : St) (fill : Bool) (rule : Rule) : Option (Option Fill) :=
  if fill then
    match convert_color st.color_space_fill st.color_fill with
    | some c => some (some { color := c, rule := rule })
    | none => none
  else some none

/-- The stroke styling of a painted path (pdf.rs lines 414-427). -/
def strokeStyleOf (st : St) (stroke : Bool) (gs : GraphicsState) : Option (Option Stroke) :=
  if stroke then
    match convert_color st.color_space_stroke st.color_stroke with
    | some c => some (some { color := c, lineJoin := joinOf gs.line_join_style })
    | none => none
  else some none

/-- The body of the path-painting arm (pdf.rs lines 400-429): optionally
close, read the current graphics state (`last().unwrap()`), flush the path
accumulator through `finish_path` under the current transform, emit exactly
one operation, and reset the accumulator. -/
def paintStep (st : St) (close fill stroke : Bool) (rule : Rule) :
    Option (St × List PageOp) :=
  let p1 := if close then st.p ++ [PathEvent.close] else st.p
  match st.graphics_states with
  | [] => none
  | gs :: _ =>
    match fillStyleOf st fill rule with
    | none => none
    | some fs =>
      match strokeStyleOf st stroke gs with
      | none => none
      | some ss =>
        some ({ st with p := [] },
          [{ path := some (PPath.transformed (PPath.build p1) gs.transform)
             fill := fs
             stroke := ss
             image := none }])

/-- One iteration of the `page_ops` dispatch loop (pdf.rs lines 338-845):
given an operator, the next state and the operations it emits, or `none`
where the source panics (`unwrap` on malformed operands or on an empty
stack). -/
def step (env : Env) (st : St) (op : Op) : Option (St × List PageOp) :=
  if op.operator = "c" then do
    let x1 ← (← op.operands.get? 0).as_float
    let y1 ← (← op.operands.get? 1).as_float
    let x2 ← (← op.operands.get? 2).as_float
    let y2 ← (← op.operands.get? 3).as_float
    let x3 ← (← op.operands.get? 4).as_float
    let y3 ← (← op.operands.get? 5).as_float
    some ({ st with p := st.p ++ [PathEvent.bezierCurveTo (x1, y1) (x2, y2) (x3, y3)] }, [])
  else if op.operator = "h" then
    some ({ st with p := st.p ++ [PathEvent.close] }, [])
  else if op.operator = "l" then do
    let x ← (← op.operands.get? 0).as_float
    let y ← (← op.operands.get? 1).as_float
    some ({ st with p := st.p ++ [PathEvent.lineTo (x, y)] }, [])
  else if op.operator = "m" then do
    let x ← (← op.operands.get? 0).as_float
    let y ← (← op.operands.get? 1).as_float
    some ({ st with p := st.p ++ [PathEvent.moveTo (x, y)] }, [])
  else if op.operator = "re" then do
    let x ← (← op.operands.get? 0).as_float
    let y ← (← op.operands.get? 1).as_float
    let w ← (← op.operands.get? 2).as_float
    let h ← (← op.operands.get? 3).as_float
    some ({ st with p := st.p ++ [PathEvent.rectangle (x, y) (w, h)] }, [])
  else if isPaintTok op.operator then
    match paintTable op.operator with
    | some (close, fill, stroke, rule) => paintStep st close fill stroke rule
    | none => none
  else if op.operator = "BT" then
    some ({ st with text_states := TextState.mkDefault :: st.text_states }, [])
  else if op.operator = "ET" then
    some ({ st with text_states := st.text_states.tail }, [])
  else if op.operator = "Tf" then do
    let name ← (← op.operands.get? 0).as_name_str
    let size ← (← op.operands.get? 1).as_float
    let res := env.resolveFont name
    match st.graphics_states with
    | [] => none
    | gs :: rest =>
      let gs2 := { gs with text_encoding := res.1, text_attrs := res.2, text_size := size }
      some ({ st with graphics_states := gs2 :: rest }, [])
  else if op.operator = "TL" then do
    let leading ← (← op.operands.get? 0).as_float
    match st.graphics_states with
    | [] => none
    | gs :: rest =>
      some ({ st with graphics_states := { gs with text_leading := leading } :: rest }, [])
  else if op.operator = "Ts" then do
    let rise ← (← op.operands.get? 0).as_float
    match st.graphics_states with
    | [] => none
    | gs :: rest =>
      some ({ st with graphics_states := { gs with text_rise := rise } :: rest }, [])
  else if op.operator = "T*" then
    match st.graphics_states with
    | [] => none
    | gs :: _ =>
      match st.text_states with
      | [] => none
      | ts :: rts =>
        some ({ st with
                text_states := ts.set_tf (ts.line_tf.preTranslate (0, -gs.text_leading)) :: rts },
          [])
  else if op.operator = "Td" then do
    let x ← (← op.operands.get? 0).as_float
    let y ← (← op.operands.get? 1).as_float
    match st.text_states with
    | [] => none
    | ts :: rts =>
      some ({ st with text_states := ts.set_tf (ts.line_tf.preTranslate (x, y)) :: rts }, [])
  else if op.operator = "TD" then do
    let x ← (← op.operands.get? 0).as_float
    let y ← (← op.operands.get? 1).as_float
    -- the source binds the current graphics state here (and its unwrap can
    -- panic) but never writes to it: text_leading is left unchanged
    match st.graphics_states with
    | [] => none
    | _ :: _ =>
      match st.text_states with
      | [] => none
      | ts :: rts =>
        some ({ st with text_states := ts.set_tf (ts.line_tf.preTranslate (x, y)) :: rts }, [])
  else if op.operator = "Tm" then do
    let a ← (← op.operands.get? 0).as_float
    let b ← (← op.operands.get? 1).as_float
    let c ← (← op.operands.get? 2).as_float
    let d ← (← op.operands.get? 3).as_float
    let e ← (← op.operands.get? 4).as_float
    let f ← (← op.operands.get? 5).as_float
    match st.text_states with
    | [] => none
    | ts :: rts =>
      let tf : Transform := { m11 := a, m12 := b, m21 := c, m22 := d, m31 := e, m32 := f }
      some ({ st with text_states := ts.set_tf tf :: rts }, [])
  else if op.operator = "Tj" ∨ op.operator = "TJ" then do
    let hasAdj := op.operator == "TJ"
    let elements ←
      if hasAdj then do
        let e0 ← op.operands.get? 0
        e0.as_array
      else some op.operands
    match elements with
    | [] => some (st, [])
    | _ :: _ =>
      match st.graphics_states with
      | [] => none
      | gs :: _ =>
        match st.text_states with
        | [] => none
        | ts :: rts =>
          match showRuns env hasAdj gs st.color_space_fill st.color_fill elements ts with
          | none => none
          | some (tsF, ops) =>
            some ({ st with text_states := tsF :: rts }, ops)
  else if op.operator = "cm" then do
    let a ← (← op.operands.get? 0).as_float
    let b ← (← op.operands.get? 1).as_float
    let c ← (← op.operands.get? 2).as_float
    let d ← (← op.operands.get? 3).as_float
    let e ← (← op.operands.get? 4).as_float
    let f ← (← op.operands.get? 5).as_float
    match st.graphics_states with
    | [] => none
    | gs :: rest =>
      -- the source assigns the operand matrix outright (pdf.rs line 741)
      let tf : Transform := { m11 := a, m12 := b, m21 := c, m22 := d, m31 := e, m32 := f }
      some ({ st with graphics_states := { gs with transform := tf } :: rest }, [])
  else if op.operator = "j" then do
    match st.graphics_states with
    | [] => none
    | gs :: rest => do
      let style ← (← op.operands.get? 0).as_i64
      some ({ st with graphics_states := { gs with line_join_style := style } :: rest }, [])
  else if op.operator = "q" then
    let gs := st.graphics_states.headD GraphicsState.defaultGS
    some ({ st with graphics_states := gs :: st.graphics_states }, [])
  else if op.operator = "Q" then
    -- the source pops unconditionally (pdf.rs line 756)
    some ({ st with graphics_states := st.graphics_states.tail }, [])
  else if op.operator = "w" then do
    match st.graphics_states with
    | [] => none
    | gs :: rest => do
      let width ← (← op.operands.get? 0).as_float
      some ({ st with graphics_states := { gs with line_width := width } :: rest }, [])
  else if op.operator = "cs" then do
    let name ← (← op.operands.get? 0).as_name_str
    some ({ st with color_space_fill := name }, [])
  else if op.operator = "CS" then do
    let name ← (← op.operands.get? 0).as_name_str
    some ({ st with color_space_stroke := name }, [])
  else if op.operator = "g" then
    some ({ st with color_space_fill := "DeviceGray", color_fill := op.operands }, [])
  else if op.operator = "G" then
    some ({ st with color_space_stroke := "DeviceGray", color_stroke := op.operands }, [])
  else if op.operator = "k" then
    some ({ st with color_space_fill := "DeviceCMYK", color_fill := op.operands }, [])
  else if op.operator = "K" then
    some ({ st with color_space_stroke := "DeviceCMYK", color_stroke := op.operands }, [])
  else if op.operator = "rg" then
    some ({ st with color_space_fill := "DeviceRGB", color_fill := op.operands }, [])
  else if op.operator = "RG" then
    some ({ st with color_space_stroke := "DeviceRGB", color_stroke := op.operands }, [])
  else if op.operator = "scn" then
    some ({ st with color_fill := op.operands }, [])
  else if op.operator = "SCN" then
    some ({ st with color_stroke := op.operands }, [])
  else if op.operator = "Do" then do
    let name ← (← op.operands.get? 0).as_name_str
    match env.loadImage name with
    | some (handle, _w, _h) =>
      match st.graphics_states with
      | [] => none
      | gs :: _ =>
        let a := gs.transform.transformPoint (0, 0)
        let b := gs.transform.transformPoint (1, 1)
        let img : Image :=
          { name := name
            handle := handle
            rect :=
              { x := min a.1 b.1, y := max a.2 b.2
                w := abs (a.1 - b.1), h := abs (a.2 - b.2) } }
        some (st, [{ path := none, fill := none, stroke := none, image := some img }])
    | none => some (st, [])
  else
    -- unknown operator: logged and otherwise ignored (pdf.rs lines 841-843)
    some (st, [])

/-- The dispatch fold of `page_ops` over the whole operator stream, keeping
the operations emitted by each operator as a separate sublist (the source's
single output `Vec` is the concatenation of these sublists, in order). -/
def page_ops (env : Env) : St → List Op → Option (St × List (List PageOp))
  | st, [] => some (st, [])
  | st, op :: ops =>
    match step env st op with
    | none => none
    | some (st1, out) =>
      match page_ops env st1 ops with
      | none => none
      | some (st2, outs) => some (st2, out :: outs)

/-- The number of path-painting operator tokens in a stream. -/
def countPaintToks (ops : List Op) : ℕ :=
  (ops.filter (fun op => isPaintTok op.operator)).length

/-- The number of operations emitted by the path-painting operators of a
stream, given the per-operator emission lists. -/
def paintEmitted : List Op → List (List PageOp) → ℕ
  | op :: ops, out :: outs =>
    (if isPaintTok op.operator then out.length else 0) + paintEmitted ops outs
  | _, _ => 0

/-- Every successful path-painting step emits exactly one operation and
leaves the path accumulator empty. -/
def pathResetAfterPaint (env : Env) : Prop :=
  ∀ st op st2 out2, isPaintTok op.operator = true →
    step env st op = some (st2, out2) → out2.length = 1 ∧ st2.p = []

/-- A concrete environment with trivial oracles, used for the closed
evaluations. -/
def env0 : Env :=
  { resolveFont := fun _ => (none, {})
    decodeText := fun _ _ => some ""
    lossy := fun _ => ""
    shaper := fun _ => (PPath.build [], 0)
    loadImage := fun _ => none }

/-- The operator tokens matched by some dispatch arm of `page_ops` (pdf.rs
lines 341-840); everything else reaches the logged fallback arm. -/
def recognizedTokens : List String :=
  ["c", "h", "l", "m", "re", "b", "B", "b*", "B*", "f", "f*", "n", "s", "S",
   "BT", "ET", "Tf", "TL", "Ts", "T*", "Td", "TD", "Tm", "Tj", "TJ",
   "cm", "j", "q", "Q", "w", "cs", "CS", "g", "G", "k", "K", "rg", "RG",
   "scn", "SCN", "Do"]

def isRecognized (tok : String) : Bool := decide (tok ∈ recognizedTokens)

theorem Transform.preTranslate_preTranslate (t : Transform) (v w : ℚ × ℚ) :
    (t.preTranslate v).preTranslate w = t.preTranslate (v.1 + w.1, v.2 + w.2) := by
  simp only [preTranslate, Transform.mk.injEq, and_true, true_and]
  constructor <;> ring

theorem paintStep_emits (st : St) (close fill stroke : Bool) (rule : Rule)
    (st2 : St) (out : List PageOp)
    (h : paintStep st close fill stroke rule = some (st2, out)) :
    out.length = 1 ∧ st2.p = [] := by
  unfold paintStep at h
  rcases hgs : st.graphics_states with _ | ⟨gs, rest⟩
  · rw [hgs] at h; cases h
  · rw [hgs] at h
    dsimp only at h
    rcases hfs : fillStyleOf st fill rule with _ | fs
    · rw [hfs] at h; cases h
    · rw [hfs] at h
      dsimp only at h
      rcases hss : strokeStyleOf st stroke gs with _ | ss
      · rw [hss] at h; cases h
      · rw [hss] at h
        dsimp only at h
        simp only [Option.some.injEq, Prod.mk.injEq] at h
        obtain ⟨h1, h2⟩ := h
        subst h1
        subst h2
        exact ⟨rfl, rfl⟩

theorem step_paint_eq (env : Env) (st : St) (op : Op)
    (hp : isPaintTok op.operator = true) :
    step env st op =
      match paintTable op.operator with
      | some (close, fill, stroke, rule) => paintStep st close fill stroke rule
      | none => none := by
  have hmem : op.operator ∈ paintToks := of_decide_eq_true hp
  simp only [paintToks, List.mem_cons, List.not_mem_nil, or_false] at hmem
  rcases hmem with h | h | h | h | h | h | h | h | h <;>
    simp [step, isPaintTok, paintToks, h, paintTable]

theorem step_paint_emits (env : Env) (st : St) (op : Op) (st2 : St)
    (out2 : List PageOp) (hp : isPaintTok op.operator = true)
    (h : step env st op = some (st2, out2)) :
    out2.length = 1 ∧ st2.p = [] := by
  rw [step_paint_eq env st op hp] at h
  rcases htab : paintTable op.operator with _ | ⟨close, fill, stroke, rule⟩
  · rw [htab] at h; cases h
  · rw [htab] at h; exact paintStep_emits st close fill stroke rule st2 out2 h

theorem page_ops_paint_count (env : Env) :
    ∀ (ops : List Op) (st st' : St) (outs : List (List PageOp)),
      page_ops env st ops = some (st', outs) →
      paintEmitted ops outs = countPaintToks ops := by
  intro ops
  induction ops with
  | nil =>
    intro st st' outs h
    simp only [page_ops, Option.some.injEq, Prod.mk.injEq] at h
    obtain ⟨-, rfl⟩ := h
    rfl
  | cons op ops ih =>
    intro st st' outs h
    unfold page_ops at h
    rcases hstep : step env st op with _ | ⟨st1, out⟩ <;> rw [hstep] at h <;> dsimp only at h
    · cases h
    · rcases hrec : page_ops env st1 ops with _ | ⟨st2, outs2⟩ <;> rw [hrec] at h <;> dsimp only at h
      · cases h
      · simp only [Option.some.injEq, Prod.mk.injEq] at h
        obtain ⟨rfl, rfl⟩ := h
        have hrest := ih st1 st2 outs2 hrec
        by_cases hp : isPaintTok op.operator = true
        · have hone := step_paint_emits env st op st1 out hp hstep
          simp [paintEmitted, countPaintToks, List.filter, hp, hone.1] at hrest ⊢
          omega
        · have hp2 : isPaintTok op.operator = false := by
            cases hb : isPaintTok op.operator
            · rfl
            · exact absurd hb hp
          simp [paintEmitted, countPaintToks, List.filter, hp2] at hrest ⊢
          omega

/-! ## Claim theorems -/

/-- C1: the claim says a restore operator `Q` at graphics-stack depth 1 is a
no-op leaving the depth at 1, with a default frame always on the stack.  The
code instead pops unconditionally: from the initial depth-1 state a single
`Q` leaves the stack empty, and a following `w` (which reads the current
frame) then faults. -/
theorem c1_restore_underflows :
    page_ops env0 initState [{ operator := "Q", operands := [] }]
        = some ({ initState with graphics_states := [] }, [[]])
      ∧ page_ops env0 initState
          [{ operator := "Q", operands := [] }, { operator := "w", operands := [Obj.real 2] }]
        = none :=
  ⟨rfl, rfl⟩

/-- C2: the claim says operators requiring active text state are no-ops when
the text-object stack is empty.  The code instead unwrap-panics: each of
`T*`, `Td`, `TD`, `Tm`, `Tj`, `TJ` faults (steps to `none`) from the initial
state, which is outside any BT..ET block. -/
theorem c2_text_ops_fault_outside_text_object :
    step env0 initState { operator := "T*", operands := [] } = none
  ∧ step env0 initState { operator := "Td", operands := [Obj.real 1, Obj.real 2] } = none
  ∧ step env0 initState { operator := "TD", operands := [Obj.real 1, Obj.real 2] } = none
  ∧ step env0 initState
      { operator := "Tm"
        operands := [Obj.real 1, Obj.real 0, Obj.real 0, Obj.real 1, Obj.real 0, Obj.real 0] } = none
  ∧ step env0 initState { operator := "Tj", operands := [Obj.string [65]] } = none
  ∧ step env0 initState { operator := "TJ", operands := [Obj.arr [Obj.string [65]]] } = none :=
  ⟨rfl, rfl, rfl, rfl, rfl, rfl⟩

/-- C3: on any stream whose interpretation succeeds, the operations emitted
by path-painting operators number exactly one per painting token (so their
total equals the count of painting tokens), and every successful painting
step flushes the accumulator into the emitted operation and resets it to
empty. -/
theorem c3_paint_count_and_reset (env : Env) (ops : List Op) (st' : St)
    (outs : List (List PageOp))
    (h : page_ops env initState ops = some (st', outs)) :
    paintEmitted ops outs = countPaintToks ops ∧ pathResetAfterPaint env :=
  ⟨page_ops_paint_count env ops initState st' outs h,
   fun st op st2 out2 hp hs => step_paint_emits env st op st2 out2 hp hs⟩

def c3wOps : List Op :=
  [{ operator := "re", operands := [Obj.real 0, Obj.real 0, Obj.real 1, Obj.real 1] },
   { operator := "f", operands := [] }]

def c3wOuts : List (List PageOp) :=
  [[],
   [{ path := some (PPath.transformed
        (PPath.build [PathEvent.rectangle (0, 0) (1, 1), PathEvent.close]) Transform.identity)
      fill := some { color := ColorQ.fromRgb 0 0 0, rule := Rule.nonZero }
      stroke := none
      image := none }]]

theorem c3_witness :
    paintEmitted c3wOps c3wOuts = countPaintToks c3wOps ∧ pathResetAfterPaint env0 :=
  c3_paint_count_and_reset env0 c3wOps initState c3wOuts rfl

/-- C4: the color resolver is a pure function of its arguments; on
`DeviceRGB` with components 0.2, 0.4, 0.6 it returns exactly that RGB
triple, and on `DeviceGray` with component 0.5 it replicates it to all three
channels. -/
theorem c4_device_rgb_gray :
    convert_color "DeviceRGB" [Obj.real (2/10), Obj.real (4/10), Obj.real (6/10)]
        = some (ColorQ.fromRgb (2/10) (4/10) (6/10))
  ∧ convert_color "DeviceGray" [Obj.real (5/10)]
        = some (ColorQ.fromRgb (5/10) (5/10) (5/10)) :=
  ⟨rfl, rfl⟩

/-- C5: resolving `DeviceCMYK` with exactly three numeric components does not
fail: it returns the CMY conversion of the triple, which coincides with the
CMYK conversion under an implicit K = 0. -/
theorem c5_cmyk_three_components (c m y : ℚ) :
    convert_color "DeviceCMYK" [Obj.real c, Obj.real m, Obj.real y]
      = some (ColorQ.fromRgb (cmykToRgb c m y 0).r (cmykToRgb c m y 0).g (cmykToRgb c m y 0).b) := by
  simp [convert_color, Obj.as_float, cmyToRgb, cmykToRgb]

theorem c5_witness :
    convert_color "DeviceCMYK" [Obj.real (1/10), Obj.real (2/10), Obj.real (3/10)]
      = some (ColorQ.fromRgb (cmykToRgb (1/10) (2/10) (3/10) 0).r
          (cmykToRgb (1/10) (2/10) (3/10) 0).g (cmykToRgb (1/10) (2/10) (3/10) 0).b) :=
  c5_cmyk_three_components (1/10) (2/10) (3/10)

/-- C7: the claim says `TD x y` also sets the text leading to −y.  The code
translates the line transform like `Td` but never writes the leading: after
`BT` then `TD 5 7` the leading is still 0 (not −7), while the text matrix
was pre-translated by (5, 7). -/
theorem c7_TD_does_not_set_leading :
    (page_ops env0 initState
      [{ operator := "BT", operands := [] },
       { operator := "TD", operands := [Obj.real 5, Obj.real 7] }]).map
        (fun r => (r.1.graphics_states.map GraphicsState.text_leading, r.1.text_states))
      = some ([0],
          [{ cursor_tf := { m11 := 1, m12 := 0, m21 := 0, m22 := 1, m31 := 5, m32 := 7 }
             line_tf := { m11 := 1, m12 := 0, m21 := 0, m22 := 1, m31 := 5, m32 := 7 } }]) := by
  simp [page_ops, step, isPaintTok, paintToks, initState, GraphicsState.defaultGS,
    TextState.mkDefault, TextState.set_tf, Transform.identity, Transform.preTranslate,
    Obj.as_float]

/-- C8: the claim says `cm` concatenates the operand matrix with the prior
CTM.  The code replaces the CTM outright: after `cm 2 0 0 2 0 0` then
`cm 1 0 0 1 5 5` the stored transform is the bare second matrix, which
differs from the concatenation of the two. -/
theorem c8_cm_replaces_ctm :
    (page_ops env0 initState
      [{ operator := "cm",
         operands := [Obj.real 2, Obj.real 0, Obj.real 0, Obj.real 2, Obj.real 0, Obj.real 0] },
       { operator := "cm",
         operands := [Obj.real 1, Obj.real 0, Obj.real 0, Obj.real 1, Obj.real 5, Obj.real 5] }]).map
        (fun r => r.1.graphics_states.map GraphicsState.transform)
      = some [{ m11 := 1, m12 := 0, m21 := 0, m22 := 1, m31 := 5, m32 := 5 }]
  ∧ Transform.concatCTM { m11 := 1, m12 := 0, m21 := 0, m22 := 1, m31 := 5, m32 := 5 }
        { m11 := 2, m12 := 0, m21 := 0, m22 := 2, m31 := 0, m32 := 0 }
      ≠ { m11 := 1, m12 := 0, m21 := 0, m22 := 1, m31 := 5, m32 := 5 } := by
  constructor
  · rfl
  · norm_num [Transform.concatCTM, Transform.mk.injEq]

/-- C9: an operator whose token is not in the recognized set, with arbitrary
operands, emits no operation and leaves the whole interpreter state (both
stacks, the path accumulator, and the color state) unchanged. -/
theorem c9_unrecognized_is_noop (env : Env) (st : St) (tok : String) (args : List Obj)
    (h : isRecognized tok = false) :
    step env st { operator := tok, operands := args } = some (st, []) := by
  have hmem : tok ∉ recognizedTokens := by
    intro hc
    rw [isRecognized, decide_eq_false_iff_not] at h
    exact h hc
  simp only [recognizedTokens, List.mem_cons, List.not_mem_nil, or_false, not_or] at hmem
  simp [step, isPaintTok, paintToks, hmem]

theorem c9_witness :
    isRecognized "xyz" = false
  ∧ step env0 initState { operator := "xyz", operands := [Obj.real 1] } = some (initState, []) :=
  ⟨by decide, c9_unrecognized_is_noop env0 initState "xyz" [Obj.real 1] (by decide)⟩

/-- C10: the no-paint operator `n` still emits exactly one operation with no
fill, no stroke and no image, whose path is the accumulated path transformed
by the current graphics transform, and the accumulator is reset. -/
theorem c10_n_emits_pathonly_op (env : Env) (st : St) (gs : GraphicsState)
    (grest : List GraphicsState) (args : List Obj)
    (hgs : st.graphics_states = gs :: grest) :
    step env st { operator := "n", operands := args }
      = some ({ st with p := [] },
          [{ path := some (PPath.transformed (PPath.build st.p) gs.transform)
             fill := none
             stroke := none
             image := none }]) := by
  simp [step, isPaintTok, paintToks, paintTable, paintStep, fillStyleOf, strokeStyleOf, hgs]

theorem c10_witness :
    step env0 { initState with p := [PathEvent.lineTo (3, 4)] } { operator := "n", operands := [] }
      = some ({ initState with p := [] },
          [{ path := some (PPath.transformed (PPath.build [PathEvent.lineTo (3, 4)])
               GraphicsState.defaultGS.transform)
             fill := none
             stroke := none
             image := none }]) :=
  c10_n_emits_pathonly_op env0 { initState with p := [PathEvent.lineTo (3, 4)] }
    GraphicsState.defaultGS [] [] rfl

/-- C6: for `TJ` applied (inside a text object) to an array of a string, a
numeric adjustment, and a second string, the final text cursor equals the
starting cursor pre-translated along x by
`measured_width(str1) - adj/1000 + measured_width(str2)` in local text
space, the advances composed left to right. -/
theorem c6_TJ_cursor_advance (env : Env) (st : St) (gs : GraphicsState)
    (grest : List GraphicsState) (ts : TextState) (trest : List TextState)
    (s1 s2 : List Nat) (adj : Rat) (c1 c2 : String) (col : ColorQ)
    (st' : St) (out : List PageOp)
    (hgs : st.graphics_states = gs :: grest)
    (hts : st.text_states = ts :: trest)
    (hc1 : decodeContent env gs s1 = some c1)
    (hc2 : decodeContent env gs s2 = some c2)
    (hcol : convert_color st.color_space_fill st.color_fill = some col)
    (h : step env st
        { operator := "TJ"
          operands := [Obj.arr [Obj.string s1, Obj.real adj, Obj.string s2]] } = some (st', out)) :
    st'.text_states
      = { ts with
          cursor_tf :=
            ts.cursor_tf.preTranslate
              ((env.shaper (mkText gs col c1)).2 - adj / 1000
                + (env.shaper (mkText gs col c2)).2, 0) } :: trest := by
  unfold step at h
  simp only [String.reduceEq, reduceIte] at h
  have hpt : isPaintTok "TJ" = false := rfl
  simp only [hpt, Bool.false_eq_true, false_or, or_true, if_false, if_true, beq_self_eq_true,
    List.get?, Option.bind_eq_bind, Option.some_bind, Obj.as_array, reduceIte] at h
  rw [hgs, hts] at h
  dsimp only at h
  simp only [showRuns, Obj.as_str, hc1, hc2, takeAdjustment, Obj.as_float, hcol] at h
  simp only [ite_true, if_true] at h
  simp only [showRuns, Obj.as_str, hc2, takeAdjustment, Obj.as_float, hcol] at h
  simp only [Option.some.injEq, Prod.mk.injEq] at h
  obtain ⟨h1, -⟩ := h
  subst h1
  dsimp only
  rw [Transform.preTranslate_preTranslate]
  norm_num

def c6wSt : St := { initState with text_states := [TextState.mkDefault] }

def c6wText : TextRec := mkText GraphicsState.defaultGS (ColorQ.fromRgb 0 0 0) ""

def c6wCursor1 : Transform :=
  Transform.identity.preTranslate ((env0.shaper c6wText).2 - 5 / 1000, 0)

def c6wSt2 : St :=
  { initState with
    text_states := [{ cursor_tf := c6wCursor1.preTranslate ((env0.shaper c6wText).2 - 0 / 1000, 0)
                      line_tf := Transform.identity }] }

def c6wOut : List PageOp :=
  [{ path := some (((env0.shaper c6wText).1.transformed (Transform.scale 1 (-1))).transformed
        Transform.identity)
     fill := some { color := ColorQ.fromRgb 0 0 0, rule := Rule.nonZero }
     stroke := none
     image := none },
   { path := some (((env0.shaper c6wText).1.transformed (Transform.scale 1 (-1))).transformed
        c6wCursor1)
     fill := some { color := ColorQ.fromRgb 0 0 0, rule := Rule.nonZero }
     stroke := none
     image := none }]

theorem c6_witness :
    c6wSt2.text_states
      = { TextState.mkDefault with
          cursor_tf :=
            TextState.mkDefault.cursor_tf.preTranslate
              ((env0.shaper (mkText GraphicsState.defaultGS (ColorQ.fromRgb 0 0 0) "")).2 - 5 / 1000
                + (env0.shaper (mkText GraphicsState.defaultGS (ColorQ.fromRgb 0 0 0) "")).2, 0) }
        :: [] :=
  c6_TJ_cursor_advance env0 c6wSt GraphicsState.defaultGS [] TextState.mkDefault [] [65] [66] 5
    "" "" (ColorQ.fromRgb 0 0 0) c6wSt2 c6wOut rfl rfl rfl rfl rfl (by
      simp [step, showRuns, takeAdjustment, decodeContent, convert_color, env0, c6wSt, mkText,
        initState, GraphicsState.defaultGS, TextState.mkDefault, Obj.as_str, Obj.as_float,
        Obj.as_array, isPaintTok, paintToks, c6wSt2, c6wOut, c6wText, c6wCursor1,
        Transform.identity, Transform.preTranslate, Transform.scale, ColorQ.fromRgb])

end CosmicReader
